import Mathlib

set_option maxHeartbeats 1000000

namespace HbaseConn

/-- Decoded response values produced by the external generic codec
(HbaseObjectWritable.readFields); connection.js never inspects them, so
they are modelled as opaque tagged objects. -/
inductive HValue
  | obj (tag : Nat)
deriving DecidableEq

/-- Error values flowing through connection.js: ConnectionClosedException,
RemoteCallTimeoutException, RemoteException (remote class name and message)
and socket transport errors. -/
inductive Err
  | connectionClosed (msg : String)
  | remoteCallTimeout (msg : String)
  | remote (name msg : String)
  | transport (msg : String)
deriving DecidableEq

/-- State of one Call object (connection.js, function Call(param, timeout)).
`paramBytes` stands for the serialized Invocation (call.param), carried as
the bytes its external write would produce. `timerStarted` records whether
the constructor invoked setTimeout, `timerActive` whether that timer is
still pending, and `emitted` logs every 'done' notification delivered to
the registered waiter, as the (error, value) pair it carried. -/
structure Call where
  id : Nat
  paramBytes : List Nat
  value : Option HValue
  error : Option Err
  done : Bool
  timeout : Int
  timerStarted : Bool
  timerActive : Bool
  emitted : List (Option Err × Option HValue)
deriving DecidableEq

/-- Call construction: value and error start null, done starts false, and a
deadline timer is started exactly when `timeout && timeout > 0`, which for
an integer timeout means `0 < timeout`. -/
def mkCall (cid : Nat) (paramBytes : List Nat) (timeout : Int) : Call :=
  { id := cid, paramBytes := paramBytes, value := none, error := none,
    done := false, timeout := timeout,
    timerStarted := decide (0 < timeout), timerActive := decide (0 < timeout),
    emitted := [] }

/-- Call.prototype.callComplete: always clears a pending timer first, then,
only if not already done, sets done and emits 'done' with (error, value). -/
def callComplete (c : Call) : Call :=
  let c1 := { c with timerActive := false }
  if c1.done then c1
  else { c1 with done := true, emitted := c1.emitted ++ [(c1.error, c1.value)] }

/-- Call.prototype.setException: store the error, then callComplete. -/
def setException (c : Call) (e : Err) : Call :=
  callComplete { c with error := some e }

/-- Call.prototype.setValue: store the value, then callComplete. -/
def setValue (c : Call) (v : HValue) : Call :=
  callComplete { c with value := some v }

/-- Call.prototype of the timeout handler: the deadline timer fires and
completes the call with a RemoteCallTimeoutException. -/
def handleTimeoutit (c : Call) : Call :=
  setException c (Err.remoteCallTimeout (toString c.timeout ++ " ms timeout"))

/-- The three events that can complete a Call: a response value arrives
(setValue), an exception is delivered (setException, coming from a
connection drain, a protocol error or a remote error), or the deadline
timer fires. -/
inductive CEvent
  | value (v : HValue)
  | exception (e : Err)
  | timerFire
deriving DecidableEq

def applyEvent (c : Call) : CEvent → Call
  | CEvent.value v => setValue c v
  | CEvent.exception e => setException c e
  | CEvent.timerFire => handleTimeoutit c

def applyEvents (c : Call) (evs : List CEvent) : Call :=
  evs.foldl applyEvent c

theorem callComplete_done (c : Call) (h : c.done = true) :
    callComplete c = { c with timerActive := false } := by
  simp [callComplete, h]

theorem callComplete_fresh (c : Call) (h : c.done = false) :
    callComplete c =
      { c with timerActive := false, done := true,
               emitted := c.emitted ++ [(c.error, c.value)] } := by
  simp [callComplete, h]

/-- A call that has delivered exactly one completion notification and holds
no pending timer. -/
def oneShot (c : Call) : Prop :=
  c.done = true ∧ c.emitted.length = 1 ∧ c.timerActive = false

theorem applyEvent_fresh_oneShot (c : Call) (ev : CEvent)
    (hd : c.done = false) (he : c.emitted = []) : oneShot (applyEvent c ev) := by
  cases ev <;>
    simp [applyEvent, setValue, setException, handleTimeoutit, oneShot,
      callComplete, hd, he]

theorem applyEvent_oneShot (c : Call) (ev : CEvent)
    (h : oneShot c) : oneShot (applyEvent c ev) := by
  obtain ⟨h1, h2, h3⟩ := h
  cases ev <;>
    simp [applyEvent, setValue, setException, handleTimeoutit, oneShot,
      callComplete, h1, h2]

theorem applyEvents_oneShot (c : Call) (evs : List CEvent)
    (h : oneShot c) : oneShot (applyEvents c evs) := by
  induction evs generalizing c with
  | nil => exact h
  | cons ev rest ih =>
    simp only [applyEvents, List.foldl] at ih ⊢
    exact ih (applyEvent c ev) (applyEvent_oneShot c ev h)

/-- C1: For every Call, however many completion events (response delivery
via setValue, timeout firing, connection draining via setException) occur
and in whatever order, exactly one 'done' notification with (error, value)
is emitted to the registered waiter, and the deadline timer, if one was
started, is already canceled when the first completion is delivered. -/
theorem call_completes_exactly_once (cid : Nat) (pb : List Nat) (t : Int)
    (ev : CEvent) (evs : List CEvent) :
    ((applyEvent (mkCall cid pb t) ev).emitted.length = 1 ∧
      (applyEvent (mkCall cid pb t) ev).timerActive = false) ∧
    ((applyEvents (applyEvent (mkCall cid pb t) ev) evs).emitted.length = 1 ∧
      (applyEvents (applyEvent (mkCall cid pb t) ev) evs).timerActive = false) := by
  have h1 : oneShot (applyEvent (mkCall cid pb t) ev) :=
    applyEvent_fresh_oneShot _ ev rfl rfl
  have h2 : oneShot (applyEvents (applyEvent (mkCall cid pb t) ev) evs) :=
    applyEvents_oneShot _ evs h1
  exact ⟨⟨h1.2.1, h1.2.2⟩, ⟨h2.2.1, h2.2.2⟩⟩

/-- State of a Connection (function Connection(remoteId)): `addr` stands
for the remote host:port string, `calls` is the Pending-Call Table (the
JS object this.calls, keyed by call id), `closed` is the flag set by the
socket close handler, `closeEvents` counts emissions of the 'close' event,
`rpcTimeout` is the per-connection default timeout, `socketEnded` records
whether this side ended the socket (Connection.prototype uses socket.end
inside its private close), and `sent` logs every request frame written to
the socket. -/
structure Conn where
  addr : String
  calls : List Call
  closed : Bool
  closeEvents : Nat
  rpcTimeout : Int
  socketEnded : Bool
  sent : List (List Nat)
deriving DecidableEq

/-- Lookup this.calls[id] in the Pending-Call Table. -/
def tableGet (t : List Call) (cid : Nat) : Option Call :=
  t.find? (fun c => c.id == cid)

/-- delete this.calls[id]. -/
def tableRemove (t : List Call) (cid : Nat) : List Call :=
  t.filter (fun c => c.id != cid)

/-- this.calls[call.id] = call (overwrites any existing entry for the id). -/
def tablePut (t : List Call) (c : Call) : List Call :=
  tableRemove t c.id ++ [c]

/-- Connection.prototype, cleanup of calls: saves this.calls, resets the
table to empty before traversing the saved reference, and fails every
saved call with the given error via setException. Returns the new
connection state and the final states of the drained calls. -/
def cleanupCalls (conn : Conn) (e : Err) : Conn × List Call :=
  ({ conn with calls := [] }, conn.calls.map (fun c => setException c e))

/-- The ConnectionClosedException message built by the close handler:
'socket ' + host + ':' + port + ' closed.'. -/
def connClosedErr (conn : Conn) : Err :=
  Err.connectionClosed ("socket " ++ conn.addr ++ " closed.")

/-- Connection.prototype close handler for the socket 'close' event: sets
this.closed, drains all pending calls with a ConnectionClosedException,
then emits 'close'. -/
def handleClose (conn : Conn) : Conn × List Call :=
  let conn1 := { conn with closed := true }
  let r := cleanupCalls conn1 (connClosedErr conn1)
  ({ r.1 with closeEvents := r.1.closeEvents + 1 }, r.2)

/-- Connection.prototype error handler for the socket 'error' event: it
only drains the pending calls with the socket error. -/
def handleError (conn : Conn) (e : Err) : Conn × List Call :=
  cleanupCalls conn e

theorem setException_fresh (c : Call) (e : Err) (hd : c.done = false) :
    (setException c e).done = true ∧ (setException c e).error = some e ∧
    (setException c e).emitted = c.emitted ++ [(some e, c.value)] ∧
    (setException c e).timerActive = false := by
  simp [setException, callComplete, hd]

theorem cleanupCalls_spec (conn : Conn) (e : Err)
    (h : ∀ c ∈ conn.calls, c.done = false ∧ c.emitted = []) :
    (cleanupCalls conn e).1.calls = [] ∧
    (cleanupCalls conn e).2.length = conn.calls.length ∧
    (∀ c ∈ (cleanupCalls conn e).2,
      c.done = true ∧ c.error = some e ∧ c.emitted.length = 1) := by
  refine ⟨rfl, by simp [cleanupCalls], ?_⟩
  intro c hc
  simp only [cleanupCalls, List.mem_map] at hc
  obtain ⟨a, ha, rfl⟩ := hc
  obtain ⟨hd, he⟩ := h a ha
  obtain ⟨h1, h2, h3, _⟩ := setException_fresh a e hd
  exact ⟨h1, h2, by simp [h3, he]⟩

/-- C2: When the socket of a Connection with N outstanding Calls fires
'close' or 'error', all N Calls complete with the connection-level error,
the Pending-Call Table is empty afterwards (it was replaced by an empty
one before the drained Calls were failed), and a second 'close' firing
drains nothing, so no duplicate completions are produced. -/
theorem socket_close_or_error_drains_all (conn : Conn) (e : Err)
    (h : ∀ c ∈ conn.calls, c.done = false ∧ c.emitted = []) :
    ((handleClose conn).1.calls = [] ∧
     (handleClose conn).2.length = conn.calls.length ∧
     (∀ c ∈ (handleClose conn).2,
        c.done = true ∧ c.error = some (connClosedErr conn) ∧
        c.emitted.length = 1) ∧
     (handleClose (handleClose conn).1).2 = []) ∧
    ((handleError conn e).1.calls = [] ∧
     (handleError conn e).2.length = conn.calls.length ∧
     (∀ c ∈ (handleError conn e).2,
        c.done = true ∧ c.error = some e ∧ c.emitted.length = 1)) := by
  have hclose := cleanupCalls_spec { conn with closed := true }
    (connClosedErr { conn with closed := true }) h
  have herr := cleanupCalls_spec conn e h
  refine ⟨⟨?_, ?_, ?_, ?_⟩, ?_, ?_, ?_⟩
  · simpa [handleClose] using hclose.1
  · simpa [handleClose] using hclose.2.1
  · intro c hc
    have : c ∈ (cleanupCalls { conn with closed := true }
        (connClosedErr { conn with closed := true })).2 := by
      simpa [handleClose] using hc
    have hres := hclose.2.2 c this
    refine ⟨hres.1, ?_, hres.2.2⟩
    simpa [connClosedErr] using hres.2.1
  · simp [handleClose, cleanupCalls]
  · simpa [handleError] using herr.1
  · simpa [handleError] using herr.2.1
  · intro c hc
    exact herr.2.2 c (by simpa [handleError] using hc)

def connW : Conn :=
  { addr := "127.0.0.1:36020", calls := [], closed := false, closeEvents := 0,
    rpcTimeout := 10000, socketEnded := false, sent := [] }

def connW2 : Conn :=
  { connW with calls := [mkCall 0 [] 5000, mkCall 1 [] 5000] }

/-- Witness for C2 at a connection holding two outstanding calls. -/
theorem socket_close_or_error_drains_all_witness :
    ((handleClose connW2).1.calls = [] ∧
     (handleClose connW2).2.length = connW2.calls.length ∧
     (∀ c ∈ (handleClose connW2).2,
        c.done = true ∧ c.error = some (connClosedErr connW2) ∧
        c.emitted.length = 1) ∧
     (handleClose (handleClose connW2).1).2 = []) ∧
    ((handleError connW2 (Err.transport "ECONNRESET")).1.calls = [] ∧
     (handleError connW2 (Err.transport "ECONNRESET")).2.length
        = connW2.calls.length ∧
     (∀ c ∈ (handleError connW2 (Err.transport "ECONNRESET")).2,
        c.done = true ∧ c.error = some (Err.transport "ECONNRESET") ∧
        c.emitted.length = 1)) :=
  socket_close_or_error_drains_all connW2 (Err.transport "ECONNRESET")
    (by decide)

def connW1 : Conn := { connW with calls := [mkCall 5 [] 5000] }

/-- C4 counterexample: on a socket 'error' event the error handler drains
the calls but does NOT set the closed flag and does NOT notify listeners:
on a live connection holding one pending call, after the error handler
runs, closed is still false and no 'close' event was emitted, refuting the
claim that the 'error' path marks the Connection closed and notifies. -/
theorem socket_error_leaves_closed_unset_cex :
    (handleError connW1 (Err.transport "ECONNRESET")).1.closed = false ∧
    (handleError connW1 (Err.transport "ECONNRESET")).1.closeEvents = 0 ∧
    connW1.calls.length = 1 := by decide

/-- C4 (amended): on a socket 'error' event, the Connection fails every
Call in the Pending-Call Table with the transport error and empties the
table, but the error handler itself neither sets the closed flag nor emits
any notification; the closed flag and the 'close' notification come only
from the separate socket 'close' handler. -/
theorem socket_error_drains_without_closing (conn : Conn) (e : Err)
    (h : ∀ c ∈ conn.calls, c.done = false ∧ c.emitted = []) :
    (handleError conn e).1.calls = [] ∧
    (handleError conn e).2.length = conn.calls.length ∧
    (∀ c ∈ (handleError conn e).2,
      c.done = true ∧ c.error = some e ∧ c.emitted.length = 1) ∧
    (handleError conn e).1.closed = conn.closed ∧
    (handleError conn e).1.closeEvents = conn.closeEvents ∧
    (handleClose conn).1.closed = true ∧
    (handleClose conn).1.closeEvents = conn.closeEvents + 1 := by
  have herr := cleanupCalls_spec conn e h
  refine ⟨herr.1, herr.2.1, herr.2.2, rfl, rfl, ?_, ?_⟩ <;>
    simp [handleClose, cleanupCalls]

/-- Witness for the amended C4 at a connection holding one pending call. -/
theorem socket_error_drains_without_closing_witness :
    (handleError connW1 (Err.transport "EPIPE")).1.calls = [] ∧
    (handleError connW1 (Err.transport "EPIPE")).2.length
      = connW1.calls.length ∧
    (∀ c ∈ (handleError connW1 (Err.transport "EPIPE")).2,
      c.done = true ∧ c.error = some (Err.transport "EPIPE") ∧
      c.emitted.length = 1) ∧
    (handleError connW1 (Err.transport "EPIPE")).1.closed = connW1.closed ∧
    (handleError connW1 (Err.transport "EPIPE")).1.closeEvents
      = connW1.closeEvents ∧
    (handleClose connW1).1.closed = true ∧
    (handleClose connW1).1.closeEvents = connW1.closeEvents + 1 :=
  socket_error_drains_without_closing connW1 (Err.transport "EPIPE")
    (by decide)

/-- C10: once a Call is done, a later setException or setValue emits no
second 'done' notification and leaves done true, but it still overwrites
the stored error or value field and clears any pending timer. -/
theorem completed_call_still_overwritten (c : Call) (e : Err) (v : HValue)
    (h : c.done = true) :
    (setException c e).emitted = c.emitted ∧
    (setException c e).done = true ∧
    (setException c e).error = some e ∧
    (setException c e).timerActive = false ∧
    (setValue c v).emitted = c.emitted ∧
    (setValue c v).done = true ∧
    (setValue c v).value = some v ∧
    (setValue c v).timerActive = false := by
  simp [setException, setValue, callComplete, h]

/-- Witness for C10: a call already completed with a timeout error, then
hit by a late value and a late exception. -/
theorem completed_call_still_overwritten_witness :
    (setException (handleTimeoutit (mkCall 3 [] 40)) (Err.transport "x")).emitted
      = (handleTimeoutit (mkCall 3 [] 40)).emitted ∧
    (setException (handleTimeoutit (mkCall 3 [] 40)) (Err.transport "x")).done
      = true ∧
    (setException (handleTimeoutit (mkCall 3 [] 40)) (Err.transport "x")).error
      = some (Err.transport "x") ∧
    (setException (handleTimeoutit (mkCall 3 [] 40)) (Err.transport "x")).timerActive
      = false ∧
    (setValue (handleTimeoutit (mkCall 3 [] 40)) (HValue.obj 9)).emitted
      = (handleTimeoutit (mkCall 3 [] 40)).emitted ∧
    (setValue (handleTimeoutit (mkCall 3 [] 40)) (HValue.obj 9)).done = true ∧
    (setValue (handleTimeoutit (mkCall 3 [] 40)) (HValue.obj 9)).value
      = some (HValue.obj 9) ∧
    (setValue (handleTimeoutit (mkCall 3 [] 40)) (HValue.obj 9)).timerActive
      = false :=
  completed_call_still_overwritten (handleTimeoutit (mkCall 3 [] 40))
    (Err.transport "x") (HValue.obj 9) (by decide)

/-- DataOutputBuffer writeInt / Buffer writeInt: one 32-bit signed integer
written big-endian as four bytes (two's complement, value taken modulo
2 to the 32). -/
def int32be (n : Int) : List Nat :=
  let m := (n % (2 ^ 32 : Int)).toNat
  [m / 2 ^ 24 % 256, m / 2 ^ 16 % 256, m / 2 ^ 8 % 256, m % 256]

/-- Bytes.putInt(buf, offset, v): overwrite four bytes at the given offset
with the big-endian encoding of v (external helper from util/bytes). -/
def putInt (buf : List Nat) (off : Nat) (v : Int) : List Nat :=
  buf.take off ++ int32be v ++ buf.drop (off + 4)

/-- Connection.prototype.sendParam: serialize a 4-byte placeholder length,
the 4-byte call id, then the Invocation bytes (call.param.write, external
codec), and backpatch the placeholder at offset 0 with dataLength - 4. -/
def sendParamBytes (c : Call) : List Nat :=
  let d := int32be 0 ++ int32be (c.id : Int) ++ c.paramBytes
  putInt d 0 ((d.length : Int) - 4)

/-- C7: the request frame written for a Call is the 4-byte length field,
then the 4-byte call id, then the serialized Invocation bytes, and the
backpatched length field encodes exactly the number of bytes that follow
it, i.e. the frame length minus 4. -/
theorem request_frame_layout (c : Call) :
    sendParamBytes c =
      int32be (4 + (c.paramBytes.length : Int)) ++ int32be (c.id : Int)
        ++ c.paramBytes ∧
    (sendParamBytes c).length = 8 + c.paramBytes.length ∧
    (sendParamBytes c).take 4
      = int32be (((sendParamBytes c).length : Int) - 4) := by
  have hlen : ((int32be 0 ++ int32be (c.id : Int) ++ c.paramBytes).length : Int)
      - 4 = 4 + (c.paramBytes.length : Int) := by
    simp [int32be]
    ring
  have hmain : sendParamBytes c =
      int32be (4 + (c.paramBytes.length : Int)) ++ int32be (c.id : Int)
        ++ c.paramBytes := by
    rw [sendParamBytes, putInt, hlen]
    simp [int32be]
  have hlen2 : (sendParamBytes c).length = 8 + c.paramBytes.length := by
    rw [hmain]
    simp [int32be]
    omega
  refine ⟨hmain, hlen2, ?_⟩
  rw [hmain]
  have h3 : ((int32be (4 + (c.paramBytes.length : Int)) ++ int32be (c.id : Int)
      ++ c.paramBytes).length : Int) - 4 = 4 + (c.paramBytes.length : Int) := by
    simp [int32be]
    ring
  rw [h3]
  simp [int32be]

/-- rpcTimeout = rpcTimeout || this.rpcTimeout: the JS or-else on the
timeout argument, where an absent argument and the (falsy) value 0 both
fall back to the connection default. -/
def jsOrTimeout (x : Option Int) (d : Int) : Int :=
  match x with
  | none => d
  | some v => if v = 0 then d else v

/-- Result of one Connection.prototype.call invocation: the connection
afterwards, the advanced process-wide call counter, the Call as
constructed (before any drain mutates it), and the final states of the
calls drained when the connection was already closed. -/
structure CallOutcome where
  conn : Conn
  counter : Nat
  newCall : Call
  drained : List Call
deriving DecidableEq

/-- Connection.prototype.call(method, parameters, rpcTimeout, callback):
resolves the timeout via the JS or-else, constructs the Call from the
process-wide counter (the Invocation serialization is external, carried as
paramBytes), registers it in the Pending-Call Table, attaches the waiter,
and then either, if this.closed, runs the close handler (which drains the
whole table, the fresh call included) without writing anything, or writes
the request frame via sendParam. -/
def connCall (conn : Conn) (counter : Nat) (paramBytes : List Nat)
    (rpcTimeout : Option Int) : CallOutcome :=
  let t := jsOrTimeout rpcTimeout conn.rpcTimeout
  let c := mkCall counter paramBytes t
  let conn1 := { conn with calls := tablePut conn.calls c }
  if conn.closed then
    let r := handleClose conn1
    { conn := r.1, counter := counter + 1, newCall := c, drained := r.2 }
  else
    { conn := { conn1 with sent := conn1.sent ++ [sendParamBytes c] },
      counter := counter + 1, newCall := c, drained := [] }

/-- C6: calling on a Connection whose closed flag is set completes the
fresh Call immediately with a connection-closed error (it is drained
together with the table, its waiter notified exactly once) and writes no
request frame to the socket. -/
theorem call_on_closed_connection (conn : Conn) (counter : Nat)
    (pb : List Nat) (rt : Option Int) (hclosed : conn.closed = true) :
    (connCall conn counter pb rt).conn.sent = conn.sent ∧
    ∃ c ∈ (connCall conn counter pb rt).drained,
      c.id = counter ∧ c.done = true ∧
      c.error = some (connClosedErr conn) ∧
      c.emitted = [(some (connClosedErr conn), none)] ∧
      c.timerActive = false := by
  simp only [connCall, hclosed, if_true]
  constructor
  · simp [handleClose, cleanupCalls]
  · refine ⟨setException
      (mkCall counter pb (jsOrTimeout rt conn.rpcTimeout))
      (connClosedErr conn), ?_, ?_⟩
    · simp only [handleClose, cleanupCalls, connClosedErr, List.mem_map]
      exact ⟨mkCall counter pb (jsOrTimeout rt conn.rpcTimeout),
        by simp [tablePut], rfl⟩
    · simp [setException, callComplete, mkCall]

def connClosedW : Conn := { connW with closed := true }

/-- Witness for C6: a call issued on an already-closed connection. -/
theorem call_on_closed_connection_witness :
    (connCall connClosedW 0 [7, 7] (some 200)).conn.sent = connClosedW.sent ∧
    ∃ c ∈ (connCall connClosedW 0 [7, 7] (some 200)).drained,
      c.id = 0 ∧ c.done = true ∧
      c.error = some (connClosedErr connClosedW) ∧
      c.emitted = [(some (connClosedErr connClosedW), none)] ∧
      c.timerActive = false :=
  call_on_closed_connection connClosedW 0 [7, 7] (some 200) (by decide)

/-- C9 counterexample: a call issued with the non-positive timeout 0 on a
connection whose default rpcTimeout is 10000 DOES start a deadline timer
(0 is falsy, so the default is substituted), refuting the claim that a
non-positive timeout argument never starts a timer. -/
theorem zero_timeout_starts_timer_cex :
    (connCall connW 0 [] (some 0)).newCall.timerStarted = true ∧
    (connCall connW 0 [] (some 0)).newCall.timeout = 10000 := by decide

/-- C9 (amended): a call issued with a negative timeout starts no deadline
timer, so it can only complete through a response or a failure, while a
call issued with timeout 0 is treated as if no timeout were given: the
connection default rpcTimeout is substituted, and it starts a timer
exactly when that default is positive. -/
theorem negative_timeout_starts_no_timer (conn : Conn) (counter : Nat)
    (pb : List Nat) (t : Int) (h : t < 0) :
    (connCall conn counter pb (some t)).newCall.timerStarted = false ∧
    (connCall conn counter pb (some t)).newCall.timerActive = false ∧
    (connCall conn counter pb (some t)).newCall.timeout = t ∧
    (connCall conn counter pb (some 0)).newCall.timeout = conn.rpcTimeout ∧
    (connCall conn counter pb (some 0)).newCall.timerStarted
      = decide (0 < conn.rpcTimeout) := by
  have ht0 : t ≠ 0 := by omega
  have hnp : ¬(0 < t) := by omega
  constructor
  · simp [connCall, jsOrTimeout, mkCall, ht0, hnp]
    split <;> simp [hnp]
  constructor
  · simp [connCall, jsOrTimeout, mkCall, ht0, hnp]
    split <;> simp [hnp]
  constructor
  · simp [connCall, jsOrTimeout, mkCall, ht0]
    split <;> simp
  constructor
  · simp [connCall, jsOrTimeout, mkCall]
    split <;> simp
  · simp [connCall, jsOrTimeout, mkCall]
    split <;> simp

/-- Witness for the amended C9 at timeout -1. -/
theorem negative_timeout_starts_no_timer_witness :
    (connCall connW 4 [] (some (-1))).newCall.timerStarted = false ∧
    (connCall connW 4 [] (some (-1))).newCall.timerActive = false ∧
    (connCall connW 4 [] (some (-1))).newCall.timeout = -1 ∧
    (connCall connW 4 [] (some 0)).newCall.timeout = connW.rpcTimeout ∧
    (connCall connW 4 [] (some 0)).newCall.timerStarted
      = decide (0 < connW.rpcTimeout) :=
  negative_timeout_starts_no_timer connW 4 [] (-1) (by decide)

/-- Result of the external ResponseFlag bit helper on the received flag
byte (ipc/response_flag): whether the error bit and the has-declared-length
bit are set. Modelled abstractly as the two booleans the helper returns,
since its bit layout is an external collaborator of connection.js. -/
structure RFlag where
  isError : Bool
  isLength : Bool
deriving DecidableEq

/-- What the external reads would extract from the payload bytes that
follow the 9-byte response prefix: the 4-byte state word, the two
length-prefixed strings read in the error branch (remote exception class
name and message), and the value the generic codec would decode in the
success branch. -/
structure Payload where
  state : Int
  exClass : String
  exMsg : String
  value : HValue
deriving DecidableEq

/-- One received response frame as the dispatch loop observes it: the
read error (if the prefix read failed), the 4-byte call id, the flag byte
(through the ResponseFlag helper), the declared 4-byte size, and the
decoded payload contents. -/
structure Frame where
  readErr : Option Err
  id : Nat
  flag : RFlag
  size : Int
  payload : Payload
deriving DecidableEq

/-- Outcome of dispatching one response frame: the connection afterwards,
the final state of the Call that was completed (if any), and whether the
loop re-armed to read the next frame. -/
structure DispatchResult where
  conn : Conn
  completed : Option Call
  rearmed : Bool
deriving DecidableEq

/-- Connection.prototype response dispatch for one frame: looks up the
call by id and deletes it from the Pending-Call Table, then, mirroring the
source line by line: a prefix read error fails the call and ends the
socket; a flag without the has-declared-length bit fails the call with a
RemoteException('RemoteException', 'missing data length packet, ...') and
ends the socket; an error flag completes the call with the RemoteException
read from the payload; otherwise the decoded value completes the call, and
in the two latter cases the loop re-arms. When the id is absent from the
table, every one of these paths invokes a method on the JS value
undefined, which raises a TypeError, modelled as the Except error. -/
def nextResponseStep (conn : Conn) (f : Frame) : Except String DispatchResult :=
  let call? := tableGet conn.calls f.id
  let conn1 := { conn with calls := tableRemove conn.calls f.id }
  match f.readErr, call? with
  | some _, none => Except.error "TypeError: call is undefined"
  | some e, some c =>
      Except.ok { conn := { conn1 with socketEnded := true },
                  completed := some (setException c e), rearmed := false }
  | none, call? =>
      if f.flag.isLength = false then
        match call? with
        | none => Except.error "TypeError: call is undefined"
        | some c =>
            Except.ok { conn := { conn1 with socketEnded := true },
                        completed := some (setException c
                          (Err.remote "RemoteException"
                            "missing data length packet")),
                        rearmed := false }
      else
        match call? with
        | none => Except.error "TypeError: call is undefined"
        | some c =>
            if f.flag.isError then
              Except.ok { conn := conn1,
                          completed := some (setException c
                            (Err.remote f.payload.exClass f.payload.exMsg)),
                          rearmed := true }
            else
              Except.ok { conn := conn1,
                          completed := some (setValue c f.payload.value),
                          rearmed := true }

/-- C3: a response frame whose call id is not in the Pending-Call Table is
NOT safely ignored: the dispatch loop dereferences the JS value undefined
and raises a TypeError. Here, a well-formed success frame for the unknown
id 42 on a connection with an empty table makes the dispatch step fail. -/
theorem unknown_id_response_crashes_dispatch :
    nextResponseStep connW
      { readErr := none, id := 42,
        flag := { isError := false, isLength := true }, size := 20,
        payload := { state := 0, exClass := "", exMsg := "",
                     value := HValue.obj 1 } }
      = Except.error "TypeError: call is undefined" := by rfl

/-- C5: a response frame whose flag has the error bit and the
has-declared-length bit set completes the corresponding Call with a remote
error carrying the two length-prefixed strings read from the payload,
never with a value, and this path neither closes the connection nor stops
the dispatch loop. -/
theorem error_flag_response_yields_remote_error (conn : Conn) (f : Frame)
    (c : Call) (hget : tableGet conn.calls f.id = some c)
    (hre : f.readErr = none) (herr : f.flag.isError = true)
    (hlen : f.flag.isLength = true) (hd : c.done = false)
    (hv : c.value = none) (he : c.emitted = []) :
    ∃ r : DispatchResult, nextResponseStep conn f = Except.ok r ∧
      (∃ c2 : Call, r.completed = some c2 ∧
        c2.done = true ∧
        c2.error = some (Err.remote f.payload.exClass f.payload.exMsg) ∧
        c2.value = none ∧
        c2.emitted = [(some (Err.remote f.payload.exClass f.payload.exMsg),
          none)] ∧
        c2.timerActive = false) ∧
      r.conn.closed = conn.closed ∧
      r.conn.socketEnded = conn.socketEnded ∧
      r.conn.calls = tableRemove conn.calls f.id ∧
      r.rearmed = true := by
  have hstep : nextResponseStep conn f =
      Except.ok { conn := { conn with calls := tableRemove conn.calls f.id },
                  completed := some (setException c
                    (Err.remote f.payload.exClass f.payload.exMsg)),
                  rearmed := true } := by
    simp only [nextResponseStep, hget, hre, hlen, herr]
    simp
  refine ⟨_, hstep, ⟨setException c (Err.remote f.payload.exClass
    f.payload.exMsg), rfl, ?_⟩, rfl, rfl, rfl, rfl⟩
  obtain ⟨h1, h2, h3, h4⟩ :=
    setException_fresh c (Err.remote f.payload.exClass f.payload.exMsg) hd
  exact ⟨h1, h2, by simp [setException, callComplete, hd, hv], by
    simp [h3, he, hv], h4⟩

def connW5 : Conn := { connW with calls := [mkCall 7 [] 0] }

def frameW5 : Frame :=
  { readErr := none, id := 7, flag := { isError := true, isLength := true },
    size := 40,
    payload := { state := 0, exClass := "org.apache.hadoop.hbase.NotServingRegionException",
                 exMsg := "region is closed", value := HValue.obj 0 } }

/-- Witness for C5: an error-flagged response for the pending call id 7. -/
theorem error_flag_response_yields_remote_error_witness :
    ∃ r : DispatchResult, nextResponseStep connW5 frameW5 = Except.ok r ∧
      (∃ c2 : Call, r.completed = some c2 ∧
        c2.done = true ∧
        c2.error = some (Err.remote frameW5.payload.exClass
          frameW5.payload.exMsg) ∧
        c2.value = none ∧
        c2.emitted = [(some (Err.remote frameW5.payload.exClass
          frameW5.payload.exMsg), none)] ∧
        c2.timerActive = false) ∧
      r.conn.closed = connW5.closed ∧
      r.conn.socketEnded = connW5.socketEnded ∧
      r.conn.calls = tableRemove connW5.calls frameW5.id ∧
      r.rearmed = true :=
  error_flag_response_yields_remote_error connW5 frameW5 (mkCall 7 [] 0)
    (by decide) rfl rfl rfl rfl rfl rfl

/-- The ids handed out by n successive Call constructions, with the
process-wide counter Call_Counter starting at c0: each construction takes
the current counter value as its id and increments the counter. -/
def spawnCallIds : Nat → Nat → List Nat
  | _, 0 => []
  | c0, Nat.succ m => (mkCall c0 [] 0).id :: spawnCallIds (c0 + 1) m

theorem spawnCallIds_lower (n c0 : Nat) :
    ∀ x ∈ spawnCallIds c0 n, c0 ≤ x := by
  induction n generalizing c0 with
  | zero => intro x hx; simp [spawnCallIds] at hx
  | succ m ih =>
    intro x hx
    simp only [spawnCallIds, mkCall, List.mem_cons] at hx
    rcases hx with rfl | hx
    · exact Nat.le_refl _
    · exact Nat.le_of_succ_le (ih (c0 + 1) x hx)

/-- C8: the identities assigned at Call construction are strictly
increasing over the sequence of Calls created in one process, and hence
pairwise distinct — no id is ever reused. -/
theorem call_ids_strictly_increasing (c0 n : Nat) :
    List.Pairwise (fun a b => a < b) (spawnCallIds c0 n) ∧
    (spawnCallIds c0 n).Nodup := by
  have hp : List.Pairwise (fun a b => a < b) (spawnCallIds c0 n) := by
    induction n generalizing c0 with
    | zero => simp [spawnCallIds]
    | succ m ih =>
      simp only [spawnCallIds, mkCall, List.pairwise_cons]
      exact ⟨fun x hx => Nat.lt_of_succ_le (spawnCallIds_lower m (c0 + 1) x hx),
        ih (c0 + 1)⟩
  exact ⟨hp, hp.imp (fun h => Nat.ne_of_lt h)⟩

end HbaseConn
